import Mathlib

/-!
Verification of the local keypair store and balance-resolution logic of the
pumpfun-mcp-server repository (src/utils.ts, src/list-accounts.ts,
src/buy-token.ts, src/sell-token.ts, src/create-token.ts), via a shallow
embedding.

Modelling conventions:
* The keys directory is an association list of `(fileName, FileData)` pairs;
  an absent directory is `none`.  `FileData.bytes bs` is a file whose text
  parses (by JSON.parse) as an array of naturals; `FileData.junk` is a file
  whose text does not parse, so reading it throws.
* A Solana `Keypair` is its 64-byte secret key; in the ed25519 layout used by
  `@solana/web3.js`, bytes 32..63 of the secret key are the public key, so
  `publicKey` is `secretKey.drop 32`.  `Keypair.fromSecretKey` receives
  `new Uint8Array(data)` — the Uint8Array constructor wraps every entry
  modulo 256 — and throws unless the result is 64 bytes long.  Thrown decode
  errors are modelled as `Except.error KeyError.CorruptKeyFile`.
* Effects are made explicit: functions take the relevant world state
  (directory contents, the network query's outcome, the account's balance,
  the SDK call's outcome) as arguments and return the new state.  A thrown
  JS exception is an `Except.error`.  Token and SOL amounts (JS numbers) are
  modelled as rationals.
-/

/-- Parsed contents of one file in the keys directory: either a JSON array of
naturals, or text on which JSON.parse throws. -/
inductive FileData where
  | bytes (bs : List Nat)
  | junk
deriving DecidableEq, Repr

/-- Errors thrown while decoding a persisted key file (JSON.parse failure or
`Keypair.fromSecretKey` rejecting the byte sequence). -/
inductive KeyError where
  | CorruptKeyFile
deriving DecidableEq, Repr

/-- A Solana keypair, identified by its 64-byte secret key. -/
structure Keypair where
  secretKey : List Nat
deriving DecidableEq, Repr

/-- The public key of a keypair: in the ed25519 secret-key layout used by
`@solana/web3.js`, the last 32 bytes of the 64-byte secret key. -/
def Keypair.publicKey (k : Keypair) : List Nat :=
  k.secretKey.drop 32

/-- `Keypair.fromSecretKey(new Uint8Array(data))`: the Uint8Array constructor
wraps each entry modulo 256, and the keypair constructor throws unless the
result is exactly 64 bytes. -/
def fromSecretKey (bs : List Nat) : Except KeyError Keypair :=
  let wrapped := bs.map (fun b => b % 256)
  if wrapped.length = 64 then Except.ok ⟨wrapped⟩
  else Except.error KeyError.CorruptKeyFile

/-- Reading one key file: `JSON.parse(fs.readFileSync(path))` followed by
`Keypair.fromSecretKey(new Uint8Array(keypairData))`; unparseable text
throws, modelled as `CorruptKeyFile`. -/
def decodeFile : FileData → Except KeyError Keypair
  | FileData.bytes bs => fromSecretKey bs
  | FileData.junk => Except.error KeyError.CorruptKeyFile

/-- A byte sequence a freshly generated keypair can have: `Keypair.generate()`
always yields a well-formed 64-byte secret key. -/
def validSecretKey (bs : List Nat) : Prop :=
  bs.length = 64 ∧ ∀ b ∈ bs, b < 256

instance (bs : List Nat) : Decidable (validSecretKey bs) := by
  unfold validSecretKey
  infer_instance

/-- The keys directory: one entry per file, name with its parsed contents. -/
abbrev Dir := List (String × FileData)

/-- The directory's state on disk: `none` when the directory does not exist. -/
abbrev FsState := Option Dir

/-- `getOrCreateKeypair(keysFolder, name)` from src/utils.ts: ensure the
directory exists, then read `name + ".json"` back as a keypair if the file
exists, else persist the freshly generated keypair `fresh` to that file and
return it.  Decode failures are rethrown by the surrounding catch block.
Returns the keypair together with the directory's new state. -/
def getOrCreateKeypair (st : FsState) (name : String) (fresh : Keypair) :
    Except KeyError (Keypair × FsState) :=
  match List.lookup (name ++ ".json") (st.getD []) with
  | some fd =>
      match decodeFile fd with
      | Except.ok kp => Except.ok (kp, some (st.getD []))
      | Except.error e => Except.error e
  | none =>
      Except.ok
        (fresh, some (st.getD [] ++ [(name ++ ".json", FileData.bytes fresh.secretKey)]))

/-- One parsed token account as returned by the RPC query; `uiAmount` is
`account.data.parsed.info.tokenAmount.uiAmount`, which the RPC may report
as null. -/
structure TokenAccount where
  uiAmount : Option Rat
deriving DecidableEq, Repr

/-- Outcome of `connection.getParsedTokenAccountsByOwner(owner, { mint })`:
either the returned list of parsed token accounts, or a thrown error. -/
inductive QueryResult where
  | ok (accounts : List TokenAccount)
  | err

/-- `getSPLBalance(connection, mint, owner)` from src/utils.ts, as a function
of the network query's outcome: an empty result list or a thrown query error
yields `none` (the JS `null` sentinel); otherwise the first returned
account's `uiAmount` is the balance. -/
def getSPLBalance : QueryResult → Option Rat
  | QueryResult.err => none
  | QueryResult.ok [] => none
  | QueryResult.ok (a :: _) => a.uiAmount

/-- One entry of the `accounts` array built by `listAccounts`. -/
structure AccountEntry where
  name : String
  publicKey : String
deriving DecidableEq, Repr

/-- The result object of `listAccounts` (the human-readable `message` /
`error` strings are not modelled). -/
structure ListResult where
  success : Bool
  accounts : List AccountEntry
deriving DecidableEq, Repr

/-- JS `s.startsWith(p)`, executed over the character sequences. -/
def strStartsWith (s p : String) : Bool :=
  p.data.isPrefixOf s.data

/-- JS `s.endsWith(p)`, executed over the character sequences. -/
def strEndsWith (s p : String) : Bool :=
  p.data.isSuffixOf s.data

/-- Replace the first occurrence of `pat` in a character sequence. -/
def replaceFirstAux (pat repl : List Char) : List Char → List Char
  | [] => []
  | c :: rest =>
      if pat.isPrefixOf (c :: rest) then repl ++ (c :: rest).drop pat.length
      else c :: replaceFirstAux pat repl rest

/-- JS `s.replace(pat, repl)` with a string pattern: replaces only the first
occurrence of `pat` in `s`. -/
def replaceFirst (s pat repl : String) : String :=
  ⟨replaceFirstAux pat.data repl.data s.data⟩

/-- The map step of `listAccounts` for one candidate file: strip the first
`".json"` from the file name, decode the file, and on any per-file failure
fall back to the `"Error reading keypair"` placeholder. -/
def accountOfEntry (e : String × FileData) : AccountEntry :=
  { name := replaceFirst e.1 ".json" ""
    publicKey :=
      match decodeFile e.2 with
      | Except.ok kp => toString kp.publicKey
      | Except.error _ => "Error reading keypair" }

/-- `listAccounts()` from src/list-accounts.ts: a missing keys directory is
created and reported as success with zero accounts; otherwise the files are
filtered by `!file.startsWith("mint-") && file.endsWith(".json")` and each
kept file is mapped to an entry.  Returns the result together with the
directory's new state. -/
def listAccounts : FsState → ListResult × FsState
  | none => ({ success := true, accounts := [] }, some [])
  | some d =>
      ({ success := true
         accounts :=
           (d.filter (fun e => !(strStartsWith e.1 "mint-") && strEndsWith e.1 ".json")).map
             accountOfEntry },
       some d)

/-- `LAMPORTS_PER_SOL`. -/
def lamportsPerSol : Rat := 1000000000

/-- Failure kinds of the buy / create operations that matter here (the
operations' human-readable error strings are abstracted to their kind). -/
inductive OpError where
  | insufficientBalance
  | sdkFailure
deriving DecidableEq, Repr

/-- The `{success, error}` shape returned by buy / create. -/
structure OpResult where
  success : Bool
  error : Option OpError
deriving DecidableEq, Repr

/-- The balance-guard and SDK-call portion of `buyToken` from
src/buy-token.ts (lines 43-86), with the account already resolved: `balance`
is the account's lamport balance, `sdkSuccess` the outcome `sdk.buy` would
report.  The second component records whether `sdk.buy` was invoked. -/
def buyToken (balance buyAmount : Rat) (sdkSuccess : Bool) : OpResult × Bool :=
  let requiredBalance := buyAmount * lamportsPerSol + (1 / 1000) * lamportsPerSol
  if balance < requiredBalance then
    ({ success := false, error := some OpError.insufficientBalance }, false)
  else if sdkSuccess then
    ({ success := true, error := none }, true)
  else
    ({ success := false, error := some OpError.sdkFailure }, true)

/-- The balance-guard and SDK-call portion of `createToken` from
src/create-token.ts (lines 14-58 of that file), with the account already
resolved; the fee reserve is 0.003 SOL.  The second component records
whether `sdk.createAndBuy` was invoked. -/
def createToken (balance initialBuyAmount : Rat) (sdkSuccess : Bool) : OpResult × Bool :=
  let requiredBalance := initialBuyAmount * lamportsPerSol + (3 / 1000) * lamportsPerSol
  if balance < requiredBalance then
    ({ success := false, error := some OpError.insufficientBalance }, false)
  else if sdkSuccess then
    ({ success := true, error := none }, true)
  else
    ({ success := false, error := some OpError.sdkFailure }, true)

/-- The `{success, tokensSold}` part of `sellToken`'s result. -/
structure SellResult where
  success : Bool
  tokensSold : Option Rat
deriving DecidableEq, Repr

/-- The balance-resolution and SDK-call portion of `sellToken` from
src/sell-token.ts (lines 207-269 of that file), with the account already
resolved: `tokenBalance` is what `getSPLBalance` returned, `sdkSuccess` the
outcome `sdk.sell` would report.  `!tokenBalance || tokenBalance === 0`
aborts before the SDK call; otherwise the amount submitted to `sdk.sell` is
`sellAmount === 0 ? tokenBalance : Math.min(sellAmount, tokenBalance)`.
The second component is the amount submitted to `sdk.sell` (`none` when the
SDK was never invoked). -/
def sellToken (tokenBalance : Option Rat) (sellAmount : Rat) (sdkSuccess : Bool) :
    SellResult × Option Rat :=
  match tokenBalance with
  | none => ({ success := false, tokensSold := none }, none)
  | some b =>
      if b = 0 then ({ success := false, tokensSold := none }, none)
      else
        let amountToSell := if sellAmount = 0 then b else min sellAmount b
        if sdkSuccess then
          ({ success := true, tokensSold := some amountToSell }, some amountToSell)
        else
          ({ success := false, tokensSold := none }, some amountToSell)

/-- Concrete well-formed keypair used in witnesses. -/
def kpZero : Keypair := ⟨List.replicate 64 0⟩

/-- A second concrete well-formed keypair used in witnesses. -/
def kpOne : Keypair := ⟨List.replicate 64 1⟩

/-!  ## Helper lemmas  -/

theorem lookup_append_of_none {β : Type} (k : String) (d l : List (String × β))
    (h : List.lookup k d = none) : List.lookup k (d ++ l) = List.lookup k l := by
  induction d with
  | nil => rfl
  | cons p t ih =>
      obtain ⟨pk, pv⟩ := p
      simp only [List.cons_append, List.lookup] at h ⊢
      cases hpk : (k == pk) with
      | true => rw [hpk] at h; exact Option.noConfusion h
      | false => rw [hpk] at h; exact ih h

theorem map_mod_of_lt (l : List Nat) (h : ∀ b ∈ l, b < 256) :
    l.map (fun b => b % 256) = l := by
  induction l with
  | nil => rfl
  | cons a t ih =>
      rw [List.map_cons, Nat.mod_eq_of_lt (h a (List.mem_cons_self a t)),
        ih (fun b hb => h b (List.mem_cons_of_mem a hb))]

theorem length_filter_add_of_negation {α : Type} (p q : α → Bool) (l : List α)
    (h : ∀ a, q a = !(p a)) :
    (l.filter p).length + (l.filter q).length = l.length := by
  rw [List.filter_congr (fun a _ => h a),
    Eq.symm (List.length_eq_length_filter_add p)]

/-!  ## Claims  -/

/-- C2: if the network query returns zero matching token accounts,
`getSPLBalance` returns the absent sentinel `none` (not `some 0`); if it
returns one or more accounts, the result is exactly the first account's
reported `uiAmount`, independent of the remaining accounts (no summing). -/
theorem getSPLBalance_zero_or_first (a : TokenAccount) (rest : List TokenAccount) :
    getSPLBalance (QueryResult.ok []) = none
    ∧ getSPLBalance (QueryResult.ok (a :: rest)) = a.uiAmount :=
  ⟨rfl, rfl⟩

/-- C3: a thrown network query is converted to the absent sentinel `none`,
the same value returned for zero matching accounts, so the two cases are
indistinguishable from the return value alone. -/
theorem getSPLBalance_err_absent :
    getSPLBalance QueryResult.err = none
    ∧ getSPLBalance QueryResult.err = getSPLBalance (QueryResult.ok []) :=
  ⟨rfl, rfl⟩

/-- C6: `listAccounts` on a missing keys directory creates the directory and
returns success with zero accounts, and on an existing empty directory also
returns success with zero accounts. -/
theorem listAccounts_missing_or_empty :
    listAccounts none = ({ success := true, accounts := [] }, some [])
    ∧ listAccounts (some []) = ({ success := true, accounts := [] }, some []) :=
  ⟨rfl, rfl⟩

/-- C1: if `getOrCreateKeypair` succeeds on `(st, name)` (with a well-formed
freshly generated keypair), then a second call on the resulting state with
the same name returns a keypair with the same public key and leaves the
directory unchanged: the second call reads back the persisted file and never
regenerates a key for a name whose file exists. -/
theorem getOrCreateKeypair_idem (st : FsState) (name : String) (f1 f2 kp1 : Keypair)
    (st1 : FsState) (hval : validSecretKey f1.secretKey)
    (h1 : getOrCreateKeypair st name f1 = Except.ok (kp1, st1)) :
    ∃ kp2, getOrCreateKeypair st1 name f2 = Except.ok (kp2, st1)
      ∧ kp2.publicKey = kp1.publicKey := by
  unfold getOrCreateKeypair at h1
  cases hl : List.lookup (name ++ ".json") (st.getD []) with
  | some fd =>
      simp only [hl] at h1
      cases hd : decodeFile fd with
      | ok kp =>
          simp only [hd, Except.ok.injEq, Prod.mk.injEq] at h1
          obtain ⟨hkp, hst⟩ := h1
          subst hkp
          subst hst
          refine ⟨kp, ?_, rfl⟩
          unfold getOrCreateKeypair
          simp only [Option.getD_some, hl, hd]
      | error e =>
          simp only [hd] at h1
          exact Except.noConfusion h1
  | none =>
      simp only [hl, Except.ok.injEq, Prod.mk.injEq] at h1
      obtain ⟨hkp, hst⟩ := h1
      subst hkp
      subst hst
      refine ⟨f1, ?_, rfl⟩
      unfold getOrCreateKeypair
      simp only [Option.getD_some]
      rw [lookup_append_of_none _ _ _ hl]
      simp only [List.lookup, beq_self_eq_true]
      simp only [decodeFile, fromSecretKey]
      rw [map_mod_of_lt _ hval.2, if_pos hval.1]

/-- C1 witness: a concrete run of the scenario at the empty store with the
name "default". -/
theorem getOrCreateKeypair_idem_witness :
    ∃ kp2,
      getOrCreateKeypair (some [("default.json", FileData.bytes (List.replicate 64 0))])
          "default" kpOne
        = Except.ok (kp2, some [("default.json", FileData.bytes (List.replicate 64 0))])
      ∧ kp2.publicKey = kpZero.publicKey :=
  getOrCreateKeypair_idem none "default" kpZero kpOne kpZero
    (some [("default.json", FileData.bytes (List.replicate 64 0))])
    (by decide) rfl

/-- C4: the accounts returned by `listAccounts` are exactly one entry per
file passing the filter `!startsWith "mint-" && endsWith ".json"`, and the
number of entries plus the number of excluded files (those starting with
"mint-" or not ending in ".json") accounts for every file in the
directory. -/
theorem listAccounts_excludes (d : Dir) :
    ((listAccounts (some d)).1.accounts
        = (d.filter (fun e => !(strStartsWith e.1 "mint-") && strEndsWith e.1 ".json")).map
            accountOfEntry)
    ∧ ((listAccounts (some d)).1.accounts.length
        + (d.filter (fun e => strStartsWith e.1 "mint-" || !(strEndsWith e.1 ".json"))).length
        = d.length) := by
  constructor
  · rfl
  · show ((d.filter (fun e => !(strStartsWith e.1 "mint-") && strEndsWith e.1 ".json")).map
        accountOfEntry).length + _ = _
    rw [List.length_map]
    refine length_filter_add_of_negation _ _ d (fun e => ?_)
    cases h1 : strStartsWith e.1 "mint-" <;> cases h2 : strEndsWith e.1 ".json" <;>
      simp [h1, h2]

/-- C5: `listAccounts` on any directory reports success, and every candidate
file (not "mint-"-named, ".json"-suffixed) contributes its entry to the
output, carrying the "Error reading keypair" placeholder exactly when the
file does not decode and the decoded public key when it does; no decode
failure aborts the listing. -/
theorem listAccounts_partial_success (d : Dir) :
    ((listAccounts (some d)).1.success = true)
    ∧ ∀ e ∈ d, (!(strStartsWith e.1 "mint-") && strEndsWith e.1 ".json") = true →
        accountOfEntry e ∈ (listAccounts (some d)).1.accounts
        ∧ (∀ er, decodeFile e.2 = Except.error er →
            (accountOfEntry e).publicKey = "Error reading keypair")
        ∧ (∀ kp, decodeFile e.2 = Except.ok kp →
            (accountOfEntry e).publicKey = toString kp.publicKey) := by
  refine ⟨rfl, fun e he hkeep => ⟨?_, ?_, ?_⟩⟩
  · exact List.mem_map_of_mem accountOfEntry (List.mem_filter.mpr ⟨he, hkeep⟩)
  · intro er hd
    simp [accountOfEntry, hd]
  · intro kp hd
    simp [accountOfEntry, hd]

/-- C5 witness: a directory with one valid key file and one corrupt key file;
the corrupt file's entry is present and carries the placeholder. -/
theorem listAccounts_partial_success_witness :
    accountOfEntry ("bad.json", FileData.junk)
        ∈ (listAccounts (some [("good.json", FileData.bytes (List.replicate 64 1)),
            ("bad.json", FileData.junk)])).1.accounts
    ∧ (accountOfEntry ("bad.json", FileData.junk)).publicKey = "Error reading keypair" := by
  obtain ⟨hmem, herr, -⟩ :=
    (listAccounts_partial_success
        [("good.json", FileData.bytes (List.replicate 64 1)),
          ("bad.json", FileData.junk)]).2
      ("bad.json", FileData.junk) (by simp) (by decide)
  exact ⟨hmem, herr KeyError.CorruptKeyFile rfl⟩

/-- C7: if the file backing `name` holds contents that do not decode to a
valid secret key, `getOrCreateKeypair` fails with the `CorruptKeyFile` error
and never returns an identity built from the bad bytes. -/
theorem getOrCreateKeypair_corrupt (d : Dir) (name : String) (fd : FileData)
    (fresh : Keypair)
    (hfile : List.lookup (name ++ ".json") d = some fd)
    (hbad : decodeFile fd = Except.error KeyError.CorruptKeyFile) :
    getOrCreateKeypair (some d) name fresh = Except.error KeyError.CorruptKeyFile := by
  unfold getOrCreateKeypair
  simp only [Option.getD_some, hfile, hbad]

/-- C7 witness: a file holding a three-byte array fails to decode and the
call fails with `CorruptKeyFile`. -/
theorem getOrCreateKeypair_corrupt_witness :
    getOrCreateKeypair (some [("acc.json", FileData.bytes [1, 2, 3])]) "acc" kpZero
      = Except.error KeyError.CorruptKeyFile :=
  getOrCreateKeypair_corrupt [("acc.json", FileData.bytes [1, 2, 3])] "acc"
    (FileData.bytes [1, 2, 3]) kpZero rfl rfl

/-- C8: when the account's lamport balance is below the buy amount plus the
fixed fee reserve (0.001 SOL for buy, 0.003 SOL for create), the operation
returns a failed result carrying the insufficient-balance error and the SDK
call is never reached (second component `false`). -/
theorem buy_create_insufficient_guard (balance amt : Rat) (s : Bool) :
    (balance < amt * lamportsPerSol + (1 / 1000) * lamportsPerSol →
      buyToken balance amt s
        = ({ success := false, error := some OpError.insufficientBalance }, false))
    ∧ (balance < amt * lamportsPerSol + (3 / 1000) * lamportsPerSol →
      createToken balance amt s
        = ({ success := false, error := some OpError.insufficientBalance }, false)) := by
  constructor
  · intro h
    simp only [buyToken]
    rw [if_pos h]
  · intro h
    simp only [createToken]
    rw [if_pos h]

/-- C8 witness: a zero-lamport account buying 1 SOL worth on either path. -/
theorem buy_create_insufficient_guard_witness :
    buyToken 0 1 true
      = ({ success := false, error := some OpError.insufficientBalance }, false)
    ∧ createToken 0 1 true
      = ({ success := false, error := some OpError.insufficientBalance }, false) :=
  ⟨(buy_create_insufficient_guard 0 1 true).1 (by norm_num [lamportsPerSol]),
   (buy_create_insufficient_guard 0 1 true).2 (by norm_num [lamportsPerSol])⟩

/-- C10: `sellToken` with an absent or zero resolved balance fails without
invoking the SDK; otherwise the amount submitted to the SDK is the full
balance when `sellAmount` is 0 and `min sellAmount balance` otherwise, so
the amount sold never exceeds the resolved balance. -/
theorem sellToken_amount_policy (tb : Option Rat) (sa : Rat) (s : Bool) :
    (tb = none → sellToken tb sa s = ({ success := false, tokensSold := none }, none))
    ∧ (tb = some 0 → sellToken tb sa s = ({ success := false, tokensSold := none }, none))
    ∧ (∀ b, tb = some b → b ≠ 0 →
        (sellToken tb sa s).2 = some (if sa = 0 then b else min sa b))
    ∧ (∀ b amt, tb = some b → (sellToken tb sa s).2 = some amt → amt ≤ b) := by
  have hsome : ∀ b : Rat, b ≠ 0 →
      (sellToken (some b) sa s).2 = some (if sa = 0 then b else min sa b) := by
    intro b hb0
    cases s <;> simp [sellToken, hb0]
  refine ⟨?_, ?_, ?_, ?_⟩
  · intro h
    subst h
    rfl
  · intro h
    subst h
    simp [sellToken]
  · intro b hb hb0
    subst hb
    exact hsome b hb0
  · intro b amt hb hamt
    subst hb
    by_cases hb0 : b = 0
    · rw [hb0] at hamt
      simp [sellToken] at hamt
    · rw [hsome b hb0] at hamt
      rw [← Option.some.inj hamt]
      by_cases h0 : sa = 0
      · rw [if_pos h0]
      · rw [if_neg h0]
        exact min_le_right sa b

/-- C10 witness: selling 3 of a 5-token balance submits 3 to the SDK, and an
absent balance aborts before the SDK call. -/
theorem sellToken_amount_policy_witness :
    (sellToken (some 5) 3 true).2 = some (if (3 : Rat) = 0 then 5 else min 3 5)
    ∧ sellToken none 3 true = ({ success := false, tokensSold := none }, none) :=
  ⟨(sellToken_amount_policy (some 5) 3 true).2.2.1 5 rfl (by norm_num),
   (sellToken_amount_policy none 3 true).1 rfl⟩

/-- C9 counterexample: with a corrupt `default.json` on disk, the Keypair
Store operation `getOrCreateKeypair` propagates the decode failure to its
caller (modelled as `Except.error`) instead of converting it into a result
object or a sentinel, contradicting the claim that no call into the local
operations raises to its caller. -/
theorem keypairStore_rethrows_cex :
    getOrCreateKeypair (some [("default.json", FileData.junk)]) "default" kpZero
      = Except.error KeyError.CorruptKeyFile :=
  rfl

/-- C9 (amended): `getSPLBalance` converts every query failure into the
absent sentinel and `listAccounts` always returns a `{success, accounts}`
result object, but `getOrCreateKeypair` re-raises decode failures to its
caller (the surrounding buy/sell/create operations catch them at their own
boundary). -/
theorem localOps_failure_policy (st : FsState) (d : Dir) (name : String)
    (fd : FileData) (fresh : Keypair) :
    getSPLBalance QueryResult.err = none
    ∧ ((listAccounts st).1.success = true)
    ∧ (List.lookup (name ++ ".json") d = some fd →
        decodeFile fd = Except.error KeyError.CorruptKeyFile →
        getOrCreateKeypair (some d) name fresh = Except.error KeyError.CorruptKeyFile) := by
  refine ⟨rfl, ?_, ?_⟩
  · cases st <;> rfl
  · intro hfile hbad
    unfold getOrCreateKeypair
    simp only [Option.getD_some, hfile, hbad]

/-- C9 (amended) witness: the policy evaluated at a concrete corrupt store. -/
theorem localOps_failure_policy_witness :
    getOrCreateKeypair (some [("default.json", FileData.junk)]) "default" kpOne
      = Except.error KeyError.CorruptKeyFile :=
  (localOps_failure_policy none [("default.json", FileData.junk)] "default"
    FileData.junk kpOne).2.2 rfl rfl
